import Mathlib

/-!
Verification of the OpenThread commissioner control bridge
(`tools/commissioner_thci`): a shallow embedding of its command
dispatch, prompt/echo polling, joiner command construction and
dataset JSON codec, together with proofs about them.

Python integers are embedded as `Int`/`Nat`, byte strings as
`List Nat` (each element a byte value), dicts as ordered association
lists (Python dicts preserve insertion order and have unique keys),
raised exceptions as `Except`/`Option`, and in-place mutation of an
argument as explicit state passing (the function returns the new
state of the argument).
-/

namespace Thci

/-! ## Constants (commissioner_impl.py, module level) -/

/-- `COMMISSIONER_PROMPT = 'pi@raspberry'` -/
def COMMISSIONER_PROMPT : String := "pi@raspberry"

/-- `TTY_COLS = 4096`: command line length cannot exceed this. -/
def TTY_COLS : Nat := 4096

/-! ## TLV type identifiers (commissioner.py) -/

def TLV_TYPE_BORDER_AGENT_LOCATOR : Nat := 9
def TLV_TYPE_COMM_SESSION_ID : Nat := 11
def TLV_TYPE_STEERING_DATA : Nat := 8
def TLV_TYPE_AE_STEERING_DATA : Nat := 61
def TLV_TYPE_NMKP_STEERING_DATA : Nat := 62
def TLV_TYPE_JOINER_UDP_PORT : Nat := 18
def TLV_TYPE_AE_UDP_PORT : Nat := 65
def TLV_TYPE_NMKP_UDP_PORT : Nat := 66
def TLV_TYPE_ACTIVE_TIMESTAMP : Nat := 14
def TLV_TYPE_CHANNEL : Nat := 0
def TLV_TYPE_CHANNEL_MASK : Nat := 53
def TLV_TYPE_EXTENDED_PAN_ID : Nat := 2
def TLV_TYPE_MESH_LOCAL_PREFIX : Nat := 7
def TLV_TYPE_NETWORK_MASTER_KEY : Nat := 5
def TLV_TYPE_NETWORK_NAME : Nat := 3
def TLV_TYPE_PAN_ID : Nat := 1
def TLV_TYPE_PSKC : Nat := 4
def TLV_TYPE_SECURITY_POLICY : Nat := 12
def TLV_TYPE_DELAY_TIMER : Nat := 52
def TLV_TYPE_PENDING_TIMESTAMP : Nat := 51
def TLV_TYPE_TRI_HOSTNAME : Nat := 67
def TLV_TYPE_REGISTRAR_HOSTNAME : Nat := 69
def TLV_TYPE_REGISTRAR_IPv6_ADDR : Nat := 68

/-- `TLV_TYPE_TO_STRING` (commissioner_impl.py lines 96-120), as the
ordered key/value pairs of the Python dict literal. -/
def TLV_TYPE_TO_STRING : List (Nat × String) :=
  [(TLV_TYPE_BORDER_AGENT_LOCATOR, "BorderAgentLocator"),
   (TLV_TYPE_COMM_SESSION_ID, "SessionId"),
   (TLV_TYPE_STEERING_DATA, "SteeringData"),
   (TLV_TYPE_AE_STEERING_DATA, "AeSteeringData"),
   (TLV_TYPE_NMKP_STEERING_DATA, "NmkpSteeringData"),
   (TLV_TYPE_JOINER_UDP_PORT, "JoinerUdpPort"),
   (TLV_TYPE_AE_UDP_PORT, "AeUdpPort"),
   (TLV_TYPE_NMKP_UDP_PORT, "NmkpUdpPort"),
   (TLV_TYPE_ACTIVE_TIMESTAMP, "ActiveTimestamp"),
   (TLV_TYPE_CHANNEL, "Channel"),
   (TLV_TYPE_CHANNEL_MASK, "ChannelMask"),
   (TLV_TYPE_EXTENDED_PAN_ID, "ExtendedPanId"),
   (TLV_TYPE_MESH_LOCAL_PREFIX, "MeshLocalPrefix"),
   (TLV_TYPE_NETWORK_MASTER_KEY, "NetworkMasterKey"),
   (TLV_TYPE_NETWORK_NAME, "NetworkName"),
   (TLV_TYPE_PAN_ID, "PanId"),
   (TLV_TYPE_PSKC, "PSKc"),
   (TLV_TYPE_SECURITY_POLICY, "SecurityPolicy"),
   (TLV_TYPE_DELAY_TIMER, "DelayTimer"),
   (TLV_TYPE_PENDING_TIMESTAMP, "PendingTimestamp"),
   (TLV_TYPE_TRI_HOSTNAME, "TriHostname"),
   (TLV_TYPE_REGISTRAR_HOSTNAME, "RegistrarHostname"),
   (TLV_TYPE_REGISTRAR_IPv6_ADDR, "RegistrarIpv6Addr")]

/-- `TLV_TYPE_FROM_STRING`: the inverted dict built by the
comprehension at lines 122-123. -/
def TLV_TYPE_FROM_STRING : List (String × Nat) :=
  TLV_TYPE_TO_STRING.map (fun p => (p.2, p.1))

/-- Lookup `TLV_TYPE_TO_STRING[t]`; `none` models a Python `KeyError`. -/
def idToName (t : Nat) : Option String :=
  (TLV_TYPE_TO_STRING.find? (fun p => p.1 == t)).map (fun p => p.2)

/-- Lookup `TLV_TYPE_FROM_STRING[n]`; `none` models a Python `KeyError`. -/
def nameToId (n : String) : Option Nat :=
  (TLV_TYPE_FROM_STRING.find? (fun p => p.1 == n)).map (fun p => p.2)

/-! ## Response checking (`OTCommissioner._check_response`) -/

/-- The two kinds of exception `_check_response` can raise:
`response[-1]` on an empty list raises `IndexError`; a response whose
last line is not the literal marker raises `commissioner.Error`. -/
inductive PyCheckError
  | indexError
  | commissionerError (msg : String)
  deriving DecidableEq, Repr

/-- `OTCommissioner._check_response` (lines 536-541):
`response[-1]` is `getLast?` (IndexError on the empty list); on a last
line differing from the literal marker it raises
`commissioner.Error('Error message:' + newline + newline.join(response))`;
otherwise it returns `response` itself, unmodified. -/
def check_response (response : List String) : Except PyCheckError (List String) :=
  match response.getLast? with
  | none => .error .indexError
  | some last =>
    if last != "[done]" then
      .error (.commissionerError ("Error message:\n" ++ String.intercalate "\n" response))
    else
      .ok response

/-! ## Command length guard (`OTCommissioner._command`, lines 477-481) -/

inductive CommandFailure
  | commandTooLong
  deriving DecidableEq, Repr

/-- The prefix of `OTCommissioner._command` up to and including the
transport write: if `len(cmd) + len(COMMISSIONER_PROMPT) >= TTY_COLS`
it raises `commissioner.Error('Command too long: ...')` before any
write; otherwise `_write_line(cmd)` writes `cmd + CRLF` to the
transport.  The first component is the list of transport writes
performed, the second the raised error if any.  (The echo wait and the
response accumulation that follow the write are modelled separately by
`expectIter` and `cmdLoopIter`.) -/
def commandAttempt (cmd : String) : List String × Option CommandFailure :=
  if cmd.length + COMMISSIONER_PROMPT.length ≥ TTY_COLS then
    ([], some .commandTooLong)
  else
    ([cmd ++ "\r\n"], none)

/-! ## Joiner commands (`enableJoiner` / `disableJoiner`, lines 239-260) -/

def JOINER_TYPE_MESHCOP : Nat := 0
def JOINER_TYPE_CCM_AE : Nat := 1
def JOINER_TYPE_CCM_NMKP : Nat := 2

/-- `JOINER_TYPE_TO_STRING` (lines 125-129). -/
def JOINER_TYPE_TO_STRING : List (Nat × String) :=
  [(JOINER_TYPE_MESHCOP, "meshcop"),
   (JOINER_TYPE_CCM_AE, "ae"),
   (JOINER_TYPE_CCM_NMKP, "nmkp")]

/-- Lookup `JOINER_TYPE_TO_STRING[t]`; `none` models a `KeyError`. -/
def joinerTypeToString (t : Nat) : Option String :=
  (JOINER_TYPE_TO_STRING.find? (fun p => p.1 == t)).map (fun p => p.2)

/-- Python truthiness of the optional integer `eui64` argument:
`None` and `0` are falsy, every other integer is truthy. -/
def pyTruthyInt : Option Int → Bool
  | none => false
  | some n => n != 0

/-- Python truthiness of the optional string `password` argument:
`None` and the empty string are falsy. -/
def pyTruthyStr : Option String → Bool
  | none => false
  | some s => s != ""

/-- `' '.join(command)`. -/
def joinSpace : List String → String
  | [] => ""
  | [s] => s
  | s :: rest => s ++ " " ++ joinSpace rest

/-- The `command` list built by `OTCommissioner.enableJoiner`
(lines 239-250): starts as `['joiner', 'enable', typeName]`; a truthy
`eui64` is appended via `str(eui64)`, otherwise element 1 is
overwritten with `'enableall'`; a truthy `password` is appended. -/
def enableJoinerArgs (joinerType : Nat) (eui64 : Option Int)
    (password : Option String) : Option (List String) :=
  (joinerTypeToString joinerType).map (fun ts =>
    let cmd : List String := ["joiner", "enable", ts]
    let cmd := if pyTruthyInt eui64 then cmd ++ [toString (eui64.getD 0)]
               else cmd.set 1 "enableall"
    if pyTruthyStr password then cmd ++ [password.getD ""] else cmd)

/-- The command line submitted by `enableJoiner`: `' '.join(command)`. -/
def enableJoinerCmd (joinerType : Nat) (eui64 : Option Int)
    (password : Option String) : Option String :=
  (enableJoinerArgs joinerType eui64 password).map joinSpace

/-- The `command` list built by `OTCommissioner.disableJoiner`
(lines 252-260); same shape, with no password parameter. -/
def disableJoinerArgs (joinerType : Nat) (eui64 : Option Int) :
    Option (List String) :=
  (joinerTypeToString joinerType).map (fun ts =>
    let cmd : List String := ["joiner", "disable", ts]
    if pyTruthyInt eui64 then cmd ++ [toString (eui64.getD 0)]
    else cmd.set 1 "disableall")

/-- The command line submitted by `disableJoiner`. -/
def disableJoinerCmd (joinerType : Nat) (eui64 : Option Int) : Option String :=
  (disableJoinerArgs joinerType eui64).map joinSpace

/-! ## The polling loops (`OTCommissioner._expect`, lines 407-421, and
the response loop of `OTCommissioner._command`, lines 483-496)

Reads from the transport are modelled as a stream
`reads : Nat → Option String`: the value the n-th call of
`_read_line` returns (`none` models the Python `None` that
`_read_line` returns when no complete line is buffered).  One loop
iteration is one step; the `timeout` local is carried in the state.
The loop bodies in the source never assign to `timeout`, so the step
functions leave it unchanged. -/

structure ExpectState where
  timeout : Int
  readCount : Nat
  deriving DecidableEq, Repr

inductive ExpectResult
  | matched
  | raisedNotFound
  | running (s : ExpectState)
  deriving DecidableEq, Repr

/-- One iteration of the `while timeout > 0` loop of `_expect`:
read a line; if it equals `expected`, return; otherwise sleep and
re-test the guard.  Once the guard fails,
`commissioner.Error('Failed to find expected string ...')` is raised. -/
def expectStep (expected : String) (reads : Nat → Option String)
    (s : ExpectState) : ExpectResult :=
  if s.timeout > 0 then
    if reads s.readCount = some expected then .matched
    else .running ⟨s.timeout, s.readCount + 1⟩
  else .raisedNotFound

/-- `fuel` iterations of the `_expect` loop. -/
def expectIter (expected : String) (reads : Nat → Option String) :
    Nat → ExpectState → ExpectResult
  | 0, s => .running s
  | fuel + 1, s =>
    match expectStep expected reads s with
    | .running s2 => expectIter expected reads fuel s2
    | r => r

/-- `re.match(COMMISSIONER_PROMPT, line)`: the pattern contains no
regex metacharacters, so matching at the start of the string is a
prefix test. -/
def promptMatch (line : String) : Bool :=
  COMMISSIONER_PROMPT.isPrefixOf line

structure CmdLoopState where
  timeout : Int
  readCount : Nat
  response : List String
  deriving DecidableEq, Repr

inductive CmdLoopResult
  | finished (response : List String)
  | raisedNoEnd
  | running (s : CmdLoopState)
  deriving DecidableEq, Repr

/-- One iteration of the response-accumulation loop of `_command`:
read a line; a truthy line matching the prompt breaks the loop
(success), any other truthy line is appended to `response`; then sleep
and re-test the guard.  When the guard fails the code raises
`Exception('Failed to find end of response')`. -/
def cmdLoopStep (reads : Nat → Option String) (s : CmdLoopState) : CmdLoopResult :=
  if s.timeout > 0 then
    match reads s.readCount with
    | some l =>
      if l ≠ "" then
        if promptMatch l then .finished s.response
        else .running ⟨s.timeout, s.readCount + 1, s.response ++ [l]⟩
      else .running ⟨s.timeout, s.readCount + 1, s.response⟩
    | none => .running ⟨s.timeout, s.readCount + 1, s.response⟩
  else .raisedNoEnd

/-- `fuel` iterations of the `_command` response loop. -/
def cmdLoopIter (reads : Nat → Option String) :
    Nat → CmdLoopState → CmdLoopResult
  | 0, s => .running s
  | fuel + 1, s =>
    match cmdLoopStep reads s with
    | .running s2 => cmdLoopIter reads fuel s2
    | r => r

/-- The `timeout` component of a still-running loop, `none` once the
loop has exited. -/
def CmdLoopResult.runningTimeout : CmdLoopResult → Option Int
  | .running s => some s.timeout
  | _ => none

/-- A read stream that never produces a line. -/
def silentReads : Nat → Option String := fun _ => none

/-! ## The daemon's execute/abort path
(`Application._execute_command`, commissionerd.py lines 168-186) -/

/-- Outcome of one `pexpect` `expect(prompt)` call on the CLI process:
either the prompt was found (with the accumulated output before it) or
the call timed out. -/
inductive PexpectOutcome
  | found (before : String)
  | timedOut
  deriving DecidableEq, Repr

/-- The behaviour of the underlying CLI process for one dispatched
command: the outcome of the first `expect(prompt)` and, should that
time out, the outcome of the grace-window `expect(prompt, timeout=1)`
issued after the interrupt signal. -/
structure CliProcess where
  firstExpect : PexpectOutcome
  expectAfterSigint : PexpectOutcome
  deriving DecidableEq, Repr

/-- Externally visible actions `_execute_command` performs on the
process. -/
inductive ExecEvent
  | sendline (cmd : String)
  | sigint
  deriving DecidableEq, Repr

inductive ExecError
  | cliNotStarted
  | timeoutAfterAbort
  deriving DecidableEq, Repr

/-- `Application._execute_command(command, wait_for_result)`:
raises `_AppException('CLI not started yet')` without a process;
otherwise sends the line and (when waiting) expects the prompt.  On
timeout it kills the process with `SIGINT` and expects the prompt once
more with a one-second budget: success returns the diagnostic
`'Timed out executing "<command>"' + newline + before`, a second
timeout raises `_AppException`.  Returns the performed events and
the result (`.ok none` for `wait_for_result=False`). -/
def execute_command (proc : Option CliProcess) (command : String)
    (wait_for_result : Bool) : List ExecEvent × Except ExecError (Option String) :=
  match proc with
  | none => ([], .error .cliNotStarted)
  | some p =>
    if wait_for_result then
      match p.firstExpect with
      | .found before => ([.sendline command], .ok (some before))
      | .timedOut =>
        match p.expectAfterSigint with
        | .found before =>
          ([.sendline command, .sigint],
           .ok (some ("Timed out executing \"" ++ command ++ "\"\n" ++ before)))
        | .timedOut => ([.sendline command, .sigint], .error .timeoutAfterAbort)
    else
      ([.sendline command], .ok none)

deriving instance DecidableEq for Except

/-! ## Dataset values (nested classes of ICommissioner, commissioner.py) -/

structure Timestamp where
  seconds : Int
  ticks : Int
  u : Bool
  deriving DecidableEq, Repr

structure Channel where
  number : Int
  page : Int
  deriving DecidableEq, Repr

structure ChannelMaskEntry where
  masks : List Nat
  page : Int
  deriving DecidableEq, Repr

structure SecurityPolicy where
  rotationTime : Int
  flags : Int
  deriving DecidableEq, Repr

/-- JSON values as produced by `json.loads` / consumed by `json.dumps`.
`json.loads(json.dumps(v))` is the identity on these, so the codec is
embedded at the level of JSON values rather than serialized text. -/
inductive JVal
  | jnum (n : Int)
  | jstr (s : String)
  | jbool (b : Bool)
  | jarr (elems : List JVal)
  | jobj (fields : List (String × JVal))
  deriving Repr

/-- A value stored in a dataset dict.  Before encoding, structured
fields hold the typed records (`dts`, `dchan`, `dmask`, `dsec`) or raw
byte strings (`dbytes`); after the in-place encoding pass they hold
hex strings (`dstr`) or plain JSON objects (`djson`). -/
inductive DVal
  | dint (n : Int)
  | dstr (s : String)
  | dbool (b : Bool)
  | dbytes (b : List Nat)
  | dts (t : Timestamp)
  | dchan (c : Channel)
  | dmask (m : List ChannelMaskEntry)
  | dsec (sp : SecurityPolicy)
  | djson (j : JVal)
  deriving Repr

/-- A dataset dict: an ordered association list from TLV type id to
value (Python dicts preserve insertion order; keys are unique). -/
abbrev Dataset := List (Nat × DVal)

/-! ## Hex codec (`_hex_to_bytes` / `_bytes_to_hex`) -/

/-- One lowercase hex digit, as produced by `binascii.hexlify`. -/
def hexDigitChar (n : Nat) : Char :=
  if n < 10 then Char.ofNat (48 + n) else Char.ofNat (87 + n)

/-- The two hex digits of one byte. -/
def byteToHexChars (b : Nat) : List Char :=
  [hexDigitChar (b / 16), hexDigitChar (b % 16)]

/-- `OTCommissioner._bytes_to_hex`: `binascii.hexlify(bytearray(b))`,
lowercase, two digits per byte. -/
def bytes_to_hex (bs : List Nat) : String :=
  String.mk (bs.flatMap byteToHexChars)

/-- Value of a hex digit character; `bytearray.fromhex` accepts both
cases. -/
def hexCharVal (c : Char) : Option Nat :=
  if 48 ≤ c.toNat ∧ c.toNat ≤ 57 then some (c.toNat - 48)
  else if 97 ≤ c.toNat ∧ c.toNat ≤ 102 then some (c.toNat - 87)
  else if 65 ≤ c.toNat ∧ c.toNat ≤ 70 then some (c.toNat - 55)
  else none

/-- Parse a hex character list two digits at a time; `none` models the
`ValueError` raised on a malformed or odd-length string. -/
def hexPairsToBytes : List Char → Option (List Nat)
  | [] => some []
  | [_] => none
  | c1 :: c2 :: rest => do
    let hi ← hexCharVal c1
    let lo ← hexCharVal c2
    let tail ← hexPairsToBytes rest
    pure ((16 * hi + lo) :: tail)

/-- `OTCommissioner._hex_to_bytes`: `bytes(bytearray.fromhex(s))`. -/
def hex_to_bytes (s : String) : Option (List Nat) :=
  hexPairsToBytes s.data

/-! ## Sub-record codecs (lines 651-685) -/

/-- `OTCommissioner._timestamp_to_json_obj`. -/
def timestamp_to_json_obj (t : Timestamp) : JVal :=
  .jobj [("Seconds", .jnum t.seconds), ("Ticks", .jnum t.ticks),
         ("U", .jnum (if t.u then 1 else 0))]

/-- `fields[key]` on a JSON object's fields; `none` is a `KeyError`. -/
def jobjGet (fields : List (String × JVal)) (key : String) : Option JVal :=
  (fields.find? (fun p => p.1 == key)).map (fun p => p.2)

/-- `OTCommissioner._timestamp_from_json_obj`: reads `Seconds`,
`Ticks` and `U`; `u` is `False` when `U == 0`, else `True`. -/
def timestamp_from_json_obj (j : JVal) : Option Timestamp :=
  match j with
  | .jobj fields =>
    match jobjGet fields "Seconds", jobjGet fields "Ticks", jobjGet fields "U" with
    | some (.jnum s), some (.jnum tk), some (.jnum uv) =>
      some ⟨s, tk, if uv == 0 then false else true⟩
    | _, _, _ => none
  | _ => none

/-- `OTCommissioner._channel_mask_to_json_obj`: one
`{'Masks': hex, 'Page': page}` object per entry, in order. -/
def channel_mask_to_json_obj (m : List ChannelMaskEntry) : JVal :=
  .jarr (m.map (fun e =>
    .jobj [("Masks", .jstr (bytes_to_hex e.masks)), ("Page", .jnum e.page)]))

/-- `OTCommissioner._channel_mask_from_json_obj`. -/
def channel_mask_from_json_obj (j : JVal) : Option (List ChannelMaskEntry) :=
  match j with
  | .jarr elems =>
    elems.mapM (fun e =>
      match e with
      | .jobj fields =>
        match jobjGet fields "Masks", jobjGet fields "Page" with
        | some (.jstr h), some (.jnum p) =>
          (hex_to_bytes h).map (fun bs => ⟨bs, p⟩)
        | _, _ => none
      | _ => none)
  | _ => none

/-! ## Active dataset codec
(`_active_op_dataset_to_json`, lines 592-629, and
`_active_op_dataset_from_json`, lines 551-590) -/

/-- The in-place update `_active_op_dataset_to_json` applies to the
value stored at key `k` of its argument dict.  The source performs one
`if key in dataset` block per transcoded key; since dict keys are
unique and each block rewrites only its own key, this per-entry
mapping is the same update.  `none` models the `AttributeError` /
`TypeError` raised when the stored value does not have the expected
shape. -/
def dvalMutateActive (k : Nat) (v : DVal) : Option DVal :=
  if k = TLV_TYPE_ACTIVE_TIMESTAMP then
    match v with
    | .dts t => some (.djson (timestamp_to_json_obj t))
    | _ => none
  else if k = TLV_TYPE_CHANNEL then
    match v with
    | .dchan c => some (.djson (.jobj [("Number", .jnum c.number), ("Page", .jnum c.page)]))
    | _ => none
  else if k = TLV_TYPE_CHANNEL_MASK then
    match v with
    | .dmask m => some (.djson (channel_mask_to_json_obj m))
    | _ => none
  else if k = TLV_TYPE_EXTENDED_PAN_ID then
    match v with
    | .dbytes b => some (.dstr (bytes_to_hex b))
    | _ => none
  else if k = TLV_TYPE_NETWORK_MASTER_KEY then
    match v with
    | .dbytes b => some (.dstr (bytes_to_hex b))
    | _ => none
  else if k = TLV_TYPE_SECURITY_POLICY then
    match v with
    | .dsec sp => some (.djson (.jobj [("Flags", .jnum sp.flags), ("RotationTime", .jnum sp.rotationTime)]))
    | _ => none
  else
    some v

/-- The state of the argument dict after the in-place update pass of
`_active_op_dataset_to_json` (the pass mutates the caller's dict). -/
def activeMutate (d : Dataset) : Option Dataset :=
  d.mapM (fun p => (dvalMutateActive p.1 p.2).map (fun v => (p.1, v)))

/-- A mutated dict value as the JSON value `json.dumps` serializes it
to; `none` models the `TypeError` on a non-serializable object. -/
def dvalToJVal : DVal → Option JVal
  | .dint n => some (.jnum n)
  | .dstr s => some (.jstr s)
  | .dbool b => some (.jbool b)
  | .djson j => some j
  | _ => none

/-- `dataset = {TLV_TYPE_TO_STRING[key]: dataset[key] for key in dataset}`
followed by `json.dumps(dataset)`, at the JSON-value level. -/
def datasetToJObj (d : Dataset) : Option JVal :=
  (d.mapM (fun (p : Nat × DVal) => do
    let n ← idToName p.1
    let j ← dvalToJVal p.2
    pure (n, j))).map .jobj

/-- `OTCommissioner._active_op_dataset_to_json`: the in-place update
pass followed by key translation and `json.dumps`.  The first
component of the result is the caller's dict as left after the call
(the updates are in-place), the second the dumped JSON value. -/
def active_op_dataset_to_json (d : Dataset) : Option (Dataset × JVal) :=
  match activeMutate d with
  | none => none
  | some d2 => (datasetToJObj d2).map (fun j => (d2, j))

/-- A JSON value at a key with no transcoding rule stays as loaded:
primitives stay primitives, containers stay plain JSON. -/
def jvalPassthrough : JVal → DVal
  | .jnum n => .dint n
  | .jstr s => .dstr s
  | .jbool b => .dbool b
  | j => .djson j

/-- The per-key decoding `_active_op_dataset_from_json` applies after
`json.loads` and key translation; again one `if key in result` block
per transcoded key, equivalent to this per-entry map on a dict. -/
def dvalDecodeActive (k : Nat) (j : JVal) : Option DVal :=
  if k = TLV_TYPE_ACTIVE_TIMESTAMP then
    (timestamp_from_json_obj j).map .dts
  else if k = TLV_TYPE_CHANNEL then
    match j with
    | .jobj fields =>
      match jobjGet fields "Number", jobjGet fields "Page" with
      | some (.jnum n), some (.jnum p) => some (.dchan ⟨n, p⟩)
      | _, _ => none
    | _ => none
  else if k = TLV_TYPE_CHANNEL_MASK then
    (channel_mask_from_json_obj j).map .dmask
  else if k = TLV_TYPE_EXTENDED_PAN_ID then
    match j with
    | .jstr s => (hex_to_bytes s).map .dbytes
    | _ => none
  else if k = TLV_TYPE_NETWORK_MASTER_KEY then
    match j with
    | .jstr s => (hex_to_bytes s).map .dbytes
    | _ => none
  else if k = TLV_TYPE_SECURITY_POLICY then
    match j with
    | .jobj fields =>
      match jobjGet fields "Flags", jobjGet fields "RotationTime" with
      | some (.jnum f), some (.jnum r) => some (.dsec ⟨r, f⟩)
      | _, _ => none
    | _ => none
  else
    some (jvalPassthrough j)

/-- `OTCommissioner._active_op_dataset_from_json`, from the loaded
JSON value: translate each key via `TLV_TYPE_FROM_STRING` (a missing
key raises, modelled as `none`), then apply the per-key transforms. -/
def active_op_dataset_from_json (j : JVal) : Option Dataset :=
  match j with
  | .jobj fields =>
    fields.mapM (fun (p : String × JVal) => do
      let k ← nameToId p.1
      let v ← dvalDecodeActive k p.2
      pure (k, v))
  | _ => none

/-- Encode an active dataset and decode the produced JSON again
(`_active_op_dataset_from_json(_active_op_dataset_to_json(d))`). -/
def activeRoundTripped (d : Dataset) : Option Dataset :=
  match active_op_dataset_to_json d with
  | none => none
  | some p => active_op_dataset_from_json p.2

/-! ## Pending dataset codec and commissioner-set encoding
(for the purity claim) -/

/-- The extra in-place update of `_pending_op_dataset_to_json`
(lines 642-649): the `PendingTimestamp` value is replaced by its JSON
object before the active encoder runs. -/
def pendingMutateEntry (k : Nat) (v : DVal) : Option DVal :=
  if k = TLV_TYPE_PENDING_TIMESTAMP then
    match v with
    | .dts t => some (.djson (timestamp_to_json_obj t))
    | _ => none
  else
    some v

/-- `OTCommissioner._pending_op_dataset_to_json`: pending-timestamp
update then active encoding; result as for the active encoder. -/
def pending_op_dataset_to_json (d : Dataset) : Option (Dataset × JVal) :=
  match d.mapM (fun p => (pendingMutateEntry p.1 p.2).map (fun v => (p.1, v))) with
  | none => none
  | some d1 => active_op_dataset_to_json d1

/-- The in-place update `MGMT_COMMISSIONER_SET` (lines 226-237)
applies to its `commDataset` argument before dumping it: each steering
data value is replaced by its hex string. -/
def commMutateEntry (k : Nat) (v : DVal) : Option DVal :=
  if k = TLV_TYPE_STEERING_DATA ∨ k = TLV_TYPE_AE_STEERING_DATA ∨
      k = TLV_TYPE_NMKP_STEERING_DATA then
    match v with
    | .dbytes b => some (.dstr (bytes_to_hex b))
    | _ => none
  else
    some v

/-- The state of the `commDataset` argument after
`MGMT_COMMISSIONER_SET` has hexified the steering-data entries. -/
def commissionerSetMutate (d : Dataset) : Option Dataset :=
  d.mapM (fun p => (commMutateEntry p.1 p.2).map (fun v => (p.1, v)))

/-! ## Well-formedness of a representable active dataset -/

/-- Every element is a byte value. -/
def bytesWF (b : List Nat) : Bool :=
  b.all (fun x => decide (x < 256))

/-- `k` is a registered TLV type id with no active-dataset
transcoding rule (neither timestamp, channel, channel mask, extended
PAN id, master key nor security policy). -/
def passKey (k : Nat) : Bool :=
  (idToName k).isSome &&
    !(k == TLV_TYPE_ACTIVE_TIMESTAMP) && !(k == TLV_TYPE_CHANNEL) &&
    !(k == TLV_TYPE_CHANNEL_MASK) && !(k == TLV_TYPE_EXTENDED_PAN_ID) &&
    !(k == TLV_TYPE_NETWORK_MASTER_KEY) && !(k == TLV_TYPE_SECURITY_POLICY)

/-- The value stored at key `k` has the shape the encoder expects
there, and `k` is a registered TLV type: transcoded keys hold their
record type (mask bytes and byte fields in range), every other key
holds a JSON primitive. -/
def entryWF (k : Nat) (v : DVal) : Bool :=
  match v with
  | .dts _ => k == TLV_TYPE_ACTIVE_TIMESTAMP
  | .dchan _ => k == TLV_TYPE_CHANNEL
  | .dmask m => (k == TLV_TYPE_CHANNEL_MASK) && m.all (fun e => bytesWF e.masks)
  | .dbytes b =>
    ((k == TLV_TYPE_EXTENDED_PAN_ID) || (k == TLV_TYPE_NETWORK_MASTER_KEY)) &&
      bytesWF b
  | .dsec _ => k == TLV_TYPE_SECURITY_POLICY
  | .dint _ => passKey k
  | .dstr _ => passKey k
  | .dbool _ => passKey k
  | .djson _ => false

/-- A representable active dataset: every entry well formed. -/
def activeWF (d : Dataset) : Bool :=
  d.all (fun p => entryWF p.1 p.2)

/-- The dataset contains an ActiveTimestamp, a Channel, a multi-page
ChannelMask, an ExtendedPanId, a NetworkMasterKey and a
SecurityPolicy. -/
def containsRepresentative (d : Dataset) : Bool :=
  [TLV_TYPE_ACTIVE_TIMESTAMP, TLV_TYPE_CHANNEL, TLV_TYPE_EXTENDED_PAN_ID,
   TLV_TYPE_NETWORK_MASTER_KEY, TLV_TYPE_SECURITY_POLICY].all
    (fun k => d.any (fun p => p.1 == k)) &&
  d.any (fun p =>
    p.1 == TLV_TYPE_CHANNEL_MASK &&
      (match p.2 with
       | .dmask m => decide (2 ≤ m.length)
       | _ => false))

/-! ## Concrete test data -/

/-- A 4090-character command, over the guard's budget. -/
def longCmd : String := String.mk (List.replicate 4090 'a')

/-- A representative active dataset: all six transcoded field kinds,
a two-page channel mask, plus primitive passthrough fields. -/
def sampleActiveDataset : Dataset :=
  [(TLV_TYPE_ACTIVE_TIMESTAMP, .dts ⟨59, 7, true⟩),
   (TLV_TYPE_CHANNEL, .dchan ⟨19, 0⟩),
   (TLV_TYPE_CHANNEL_MASK, .dmask [⟨[0, 31, 248, 0], 0⟩, ⟨[255, 16], 1⟩]),
   (TLV_TYPE_EXTENDED_PAN_ID, .dbytes [222, 173, 0, 190, 239, 0, 202, 254]),
   (TLV_TYPE_NETWORK_MASTER_KEY,
     .dbytes [0, 17, 34, 51, 68, 85, 102, 119, 136, 153, 170, 187, 204, 221, 238, 255]),
   (TLV_TYPE_SECURITY_POLICY, .dsec ⟨672, 255⟩),
   (TLV_TYPE_NETWORK_NAME, .dstr "openthread-test"),
   (TLV_TYPE_PAN_ID, .dint 64206)]

/-- A one-entry active dataset holding a Timestamp record. -/
def tsOnlyDataset : Dataset := [(TLV_TYPE_ACTIVE_TIMESTAMP, .dts ⟨59, 0, false⟩)]

/-! # Theorems -/

/-- C1 counterexample: on the captured response `["foo", "[done]"]`
the dispatch succeeds but returns the FULL response, marker included,
not the response with the trailing marker removed. -/
theorem check_response_counterexample :
    check_response ["foo", "[done]"] = .ok ["foo", "[done]"] ∧
    check_response ["foo", "[done]"] ≠ .ok ["foo"] :=
  ⟨rfl, by decide⟩

/-- C1 (amended): for every captured response whose last line is
exactly the literal `[done]`, the dispatch succeeds and yields the
full response unchanged, trailing marker included (callers strip the
marker themselves when parsing); for every non-empty response whose
last line is not `[done]`, it raises a `commissioner.Error` whose
message carries the full response text joined by newlines. -/
theorem check_response_success_convention (r : List String) (hne : r ≠ []) :
    (r.getLast hne = "[done]" → check_response r = .ok r) ∧
    (r.getLast hne ≠ "[done]" →
      check_response r = .error (.commissionerError
        ("Error message:\n" ++ String.intercalate "\n" r))) := by
  have h : r.getLast? = some (r.getLast hne) := List.getLast?_eq_getLast r hne
  constructor
  · intro hd
    unfold check_response
    rw [h, hd]
    simp
  · intro hd
    unfold check_response
    rw [h]
    simp only [bne_iff_ne, ne_eq, hd, not_false_eq_true, if_true]

/-- Witness for `check_response_success_convention` at the spec's own
examples. -/
theorem check_response_success_convention_witness :
    check_response ["foo", "[done]"] = .ok ["foo", "[done]"] ∧
    check_response ["error: bad arg"] = .error (.commissionerError
      ("Error message:\n" ++ String.intercalate "\n" ["error: bad arg"])) :=
  ⟨(check_response_success_convention ["foo", "[done]"] (by simp)).1 rfl,
   (check_response_success_convention ["error: bad arg"] (by simp)).2 (by decide)⟩

/-- C10: `_check_response` is total only on non-empty responses: the
empty response raises `IndexError` from `response[-1]`, not a
`commissioner.Error`, and the typed command-failure branch is
reachable only for non-empty responses. -/
theorem check_response_empty_indexerror (r : List String) (m : String) :
    check_response [] = .error .indexError ∧
    (check_response r = .error (.commissionerError m) → r ≠ []) := by
  refine ⟨rfl, fun h => ?_⟩
  intro hr
  subst hr
  simp [check_response] at h

/-- Witness for `check_response_empty_indexerror`. -/
theorem check_response_empty_indexerror_witness :
    check_response [] = .error .indexError ∧
    (["error: bad arg"] : List String) ≠ [] :=
  ⟨(check_response_empty_indexerror [] "").1,
   (check_response_empty_indexerror ["error: bad arg"]
      ("Error message:\n" ++ String.intercalate "\n" ["error: bad arg"])).2 rfl⟩

/-- C3: command length guard with atomicity: a command with
`len(cmd) + len(prompt) >= 4096` is rejected with the command-too-long
error before any transport write; a shorter command passes the guard
and is written (as `cmd + CRLF`). -/
theorem command_length_guard (cmd : String) :
    (cmd.length + COMMISSIONER_PROMPT.length ≥ TTY_COLS →
      commandAttempt cmd = ([], some .commandTooLong)) ∧
    (cmd.length + COMMISSIONER_PROMPT.length < TTY_COLS →
      commandAttempt cmd = ([cmd ++ "\r\n"], none)) := by
  constructor
  · intro h
    unfold commandAttempt
    rw [if_pos h]
  · intro h
    unfold commandAttempt
    rw [if_neg (by omega)]

/-- Witness for `command_length_guard`: both branches at concrete
commands. -/
theorem command_length_guard_witness :
    (longCmd.length + COMMISSIONER_PROMPT.length ≥ TTY_COLS ∧
      commandAttempt longCmd = ([], some .commandTooLong)) ∧
    ("stop".length + COMMISSIONER_PROMPT.length < TTY_COLS ∧
      commandAttempt "stop" = (["stop" ++ "\r\n"], none)) := by
  have hlen : longCmd.length = 4090 := by
    rw [show longCmd.length = longCmd.data.length from rfl,
        show longCmd.data = List.replicate 4090 'a' from rfl,
        List.length_replicate]
  have h1 : longCmd.length + COMMISSIONER_PROMPT.length ≥ TTY_COLS := by
    rw [hlen]; decide
  have h2 : "stop".length + COMMISSIONER_PROMPT.length < TTY_COLS := by decide
  exact ⟨⟨h1, (command_length_guard longCmd).1 h1⟩,
         ⟨h2, (command_length_guard "stop").2 h2⟩⟩

/-- C8: the TLV id-to-name and name-to-id tables are mutually inverse
on every registered entry, and the name column is exactly the 23
canonical names. -/
theorem tlv_table_roundtrip :
    (∀ p ∈ TLV_TYPE_TO_STRING, (idToName p.1).bind nameToId = some p.1 ∧
      (nameToId p.2).bind idToName = some p.2) ∧
    TLV_TYPE_TO_STRING.map Prod.snd =
      ["BorderAgentLocator", "SessionId", "SteeringData", "AeSteeringData",
       "NmkpSteeringData", "JoinerUdpPort", "AeUdpPort", "NmkpUdpPort",
       "ActiveTimestamp", "Channel", "ChannelMask", "ExtendedPanId",
       "MeshLocalPrefix", "NetworkMasterKey", "NetworkName", "PanId",
       "PSKc", "SecurityPolicy", "DelayTimer", "PendingTimestamp",
       "TriHostname", "RegistrarHostname", "RegistrarIpv6Addr"] := by
  decide

/-- C6 counterexample: with the eui64 omitted, `enableJoiner` does not
emit the template form `joiner enable <type>`; it rewrites the
subcommand to `enableall`. -/
theorem joiner_enableall_counterexample :
    enableJoinerCmd JOINER_TYPE_MESHCOP none none = some "joiner enableall meshcop" ∧
    enableJoinerCmd JOINER_TYPE_MESHCOP none none ≠ some "joiner enable meshcop" :=
  ⟨rfl, by decide⟩

/-- C6 (amended): with a truthy eui64 the built command follows
`joiner enable|disable <type> <eui64> [password]` in exact positional
order; with the eui64 omitted (meaning all joiners) the subcommand
becomes `enableall`/`disableall`: `joiner enableall|disableall <type>
[password]`. -/
theorem joiner_command_mapping (t : Nat) (ts : String) (e : Int) (pw : String)
    (ht : joinerTypeToString t = some ts) (he : e ≠ 0) (hpw : pw ≠ "") :
    enableJoinerArgs t (some e) (some pw) = some ["joiner", "enable", ts, toString e, pw] ∧
    enableJoinerArgs t (some e) none = some ["joiner", "enable", ts, toString e] ∧
    disableJoinerArgs t (some e) = some ["joiner", "disable", ts, toString e] ∧
    enableJoinerArgs t none (some pw) = some ["joiner", "enableall", ts, pw] ∧
    enableJoinerArgs t none none = some ["joiner", "enableall", ts] ∧
    disableJoinerArgs t none = some ["joiner", "disableall", ts] := by
  have h1 : pyTruthyInt (some e) = true := by simp [pyTruthyInt, he]
  have h2 : pyTruthyStr (some pw) = true := by simp [pyTruthyStr, hpw]
  refine ⟨?_, ?_, ?_, ?_, ?_, ?_⟩ <;>
    simp [enableJoinerArgs, disableJoinerArgs, ht, h1, h2, pyTruthyInt,
      pyTruthyStr, List.set, he, hpw]

/-- Witness for `joiner_command_mapping`. -/
theorem joiner_command_mapping_witness :
    (joinerTypeToString JOINER_TYPE_CCM_AE = some "ae" ∧ (1234 : Int) ≠ 0 ∧
      ("PSKD01" : String) ≠ "") ∧
    enableJoinerArgs JOINER_TYPE_CCM_AE (some 1234) (some "PSKD01") =
      some ["joiner", "enable", "ae", toString (1234 : Int), "PSKD01"] ∧
    enableJoinerArgs JOINER_TYPE_CCM_AE (some 1234) none =
      some ["joiner", "enable", "ae", toString (1234 : Int)] ∧
    disableJoinerArgs JOINER_TYPE_CCM_AE (some 1234) =
      some ["joiner", "disable", "ae", toString (1234 : Int)] ∧
    enableJoinerArgs JOINER_TYPE_CCM_AE none (some "PSKD01") =
      some ["joiner", "enableall", "ae", "PSKD01"] ∧
    enableJoinerArgs JOINER_TYPE_CCM_AE none none =
      some ["joiner", "enableall", "ae"] ∧
    disableJoinerArgs JOINER_TYPE_CCM_AE none =
      some ["joiner", "disableall", "ae"] :=
  ⟨⟨rfl, by decide, by decide⟩,
   joiner_command_mapping JOINER_TYPE_CCM_AE "ae" 1234 "PSKD01" rfl
     (by decide) (by decide)⟩

/-- C9: passing the integer 0 as eui64 is Python-falsy, so
`enableJoiner(t, 0)` and `disableJoiner(t, 0)` issue exactly the same
command line as the calls with eui64 omitted (the enable-all /
disable-all form). -/
theorem joiner_zero_eui64_is_all (t : Nat) (pw : Option String) :
    enableJoinerCmd t (some 0) pw = enableJoinerCmd t none pw ∧
    disableJoinerCmd t (some 0) = disableJoinerCmd t none :=
  ⟨rfl, rfl⟩

/-- C5: when the idle prompt does not reappear within the per-command
timeout, `_execute_command` sends exactly one interrupt signal after
the command line, and the abort path has exactly two outcomes: if the
prompt reappears within the grace window the call returns the
diagnostic string `Timed out executing "<command>"` followed by the
captured output, and otherwise it raises the timeout
`_AppException`. -/
theorem execute_command_abort_path (p : CliProcess) (cmd : String)
    (h : p.firstExpect = .timedOut) :
    (execute_command (some p) cmd true).1 = [.sendline cmd, .sigint] ∧
    (match p.expectAfterSigint with
     | .found before =>
       (execute_command (some p) cmd true).2 =
         .ok (some ("Timed out executing \"" ++ cmd ++ "\"\n" ++ before))
     | .timedOut =>
       (execute_command (some p) cmd true).2 = .error .timeoutAfterAbort) := by
  obtain ⟨f, a⟩ := p
  simp only [CliProcess.firstExpect] at h
  subst h
  cases a <;> exact ⟨rfl, rfl⟩

/-- Witness for `execute_command_abort_path`: a process that times
out and then recovers within the grace window. -/
theorem execute_command_abort_path_witness :
    (CliProcess.mk .timedOut (.found "partial output")).firstExpect = .timedOut ∧
    ((execute_command (some ⟨.timedOut, .found "partial output"⟩) "stop" true).1 =
      [.sendline "stop", .sigint] ∧
     (match (CliProcess.mk .timedOut (.found "partial output")).expectAfterSigint with
      | .found before =>
        (execute_command (some ⟨.timedOut, .found "partial output"⟩) "stop" true).2 =
          .ok (some ("Timed out executing \"" ++ "stop" ++ "\"\n" ++ before))
      | .timedOut =>
        (execute_command (some ⟨.timedOut, .found "partial output"⟩) "stop" true).2 =
          .error .timeoutAfterAbort)) :=
  ⟨rfl, execute_command_abort_path ⟨.timedOut, .found "partial output"⟩ "stop" rfl⟩

/-- C2: the waits are NOT bounded.  The `timeout` locals of `_expect`
and of the `_command` response loop are never decremented in the loop
bodies, so on a transport that never produces the expected echo (and
never produces a prompt line) both polling loops are still running
after ANY number of iterations, with the `timeout` local still at its
initial value: the guards `timeout > 0` never fail and the
post-timeout error raises are unreachable.  The claimed
expected-string / end-of-response errors therefore never happen; the
code polls forever. -/
theorem poll_loops_never_time_out (expected : String)
    (reads : Nat → Option String) (fuel : Nat) (s : ExpectState)
    (c : CmdLoopState)
    (hne : ∀ n, reads n ≠ some expected)
    (hnp : ∀ n l, reads n = some l → promptMatch l = false)
    (hs : s.timeout > 0) (hc : c.timeout > 0) :
    expectIter expected reads fuel s = .running ⟨s.timeout, s.readCount + fuel⟩ ∧
    (cmdLoopIter reads fuel c).runningTimeout = some c.timeout := by
  constructor
  · induction fuel generalizing s with
    | zero => simp [expectIter]
    | succ n ih =>
      have hstep : expectStep expected reads s =
          .running ⟨s.timeout, s.readCount + 1⟩ := by
        unfold expectStep
        rw [if_pos hs, if_neg (hne s.readCount)]
      unfold expectIter
      simp only [hstep]
      rw [show s.readCount + (n + 1) = s.readCount + 1 + n by omega]
      exact ih (s := ⟨s.timeout, s.readCount + 1⟩) hs
  · induction fuel generalizing c with
    | zero => simp [cmdLoopIter, CmdLoopResult.runningTimeout]
    | succ n ih =>
      have hstep : ∃ c2 : CmdLoopState, cmdLoopStep reads c = .running c2 ∧
          c2.timeout = c.timeout := by
        unfold cmdLoopStep
        rw [if_pos hc]
        cases hr : reads c.readCount with
        | none => exact ⟨_, rfl, rfl⟩
        | some l =>
          show ∃ c2, (if l ≠ "" then
              if promptMatch l then CmdLoopResult.finished c.response
              else CmdLoopResult.running
                ⟨c.timeout, c.readCount + 1, c.response ++ [l]⟩
            else CmdLoopResult.running
              ⟨c.timeout, c.readCount + 1, c.response⟩) = .running c2 ∧
            c2.timeout = c.timeout
          by_cases hl : l ≠ ""
          · rw [if_pos hl, if_neg (by simp [hnp c.readCount l hr])]
            exact ⟨_, rfl, rfl⟩
          · rw [if_neg hl]
            exact ⟨_, rfl, rfl⟩
      obtain ⟨c2, hstep, ht⟩ := hstep
      unfold cmdLoopIter
      simp only [hstep]
      rw [← ht]
      exact ih (c := c2) (by omega)

/-- Witness for `poll_loops_never_time_out`: on a transport that
never produces a line, both loops are still running after 7
iterations with `timeout` still at its initial value 10. -/
theorem poll_loops_never_time_out_witness :
    (∀ n, silentReads n ≠ some "active") ∧
    expectIter "active" silentReads 7 ⟨10, 0⟩ = .running ⟨10, 7⟩ ∧
    (cmdLoopIter silentReads 7 ⟨10, 0, []⟩).runningTimeout = some 10 := by
  have hne : ∀ n, silentReads n ≠ some "active" := fun n => by simp [silentReads]
  have hnp : ∀ n l, silentReads n = some l → promptMatch l = false :=
    fun n l h => by simp [silentReads] at h
  have h := poll_loops_never_time_out "active" silentReads 7 ⟨10, 0⟩ ⟨10, 0, []⟩
    hne hnp (by decide) (by decide)
  exact ⟨hne, h.1, h.2⟩

/-! ## Codec round-trip helper lemmas -/

theorem hexCharVal_hexDigitChar (n : Nat) (h : n < 16) :
    hexCharVal (hexDigitChar n) = some n := by
  interval_cases n <;> rfl

theorem hex_roundtrip (bs : List Nat) (h : ∀ b ∈ bs, b < 256) :
    hex_to_bytes (bytes_to_hex bs) = some bs := by
  have key : ∀ l : List Nat, (∀ b ∈ l, b < 256) →
      hexPairsToBytes (l.flatMap byteToHexChars) = some l := by
    intro l
    induction l with
    | nil => intro _; rfl
    | cons b rest ih =>
      intro hl
      have hb : b < 256 := hl b (by simp)
      have hdiv : b / 16 < 16 := by omega
      have hmod : b % 16 < 16 := by omega
      have hrest := ih (fun x hx => hl x (by simp [hx]))
      have expand : (b :: rest).flatMap byteToHexChars =
          hexDigitChar (b / 16) :: hexDigitChar (b % 16) ::
            rest.flatMap byteToHexChars := by
        simp [List.flatMap_cons, byteToHexChars]
      rw [expand]
      show (do
        let hi ← hexCharVal (hexDigitChar (b / 16))
        let lo ← hexCharVal (hexDigitChar (b % 16))
        let tail ← hexPairsToBytes (rest.flatMap byteToHexChars)
        pure ((16 * hi + lo) :: tail)) = some (b :: rest)
      rw [hexCharVal_hexDigitChar _ hdiv, hexCharVal_hexDigitChar _ hmod, hrest]
      show some ((16 * (b / 16) + b % 16) :: rest) = some (b :: rest)
      have : 16 * (b / 16) + b % 16 = b := by omega
      rw [this]
  unfold hex_to_bytes bytes_to_hex
  exact key bs h

/-- Every table row inverts: helper for the passthrough branch of the
per-entry round-trip. -/
theorem tlvTableInverse : ∀ p ∈ TLV_TYPE_TO_STRING, nameToId p.2 = some p.1 := by
  decide

theorem channel_mask_roundtrip (m : List ChannelMaskEntry)
    (h : ∀ e ∈ m, ∀ x ∈ e.masks, x < 256) :
    channel_mask_from_json_obj (channel_mask_to_json_obj m) = some m := by
  induction m with
  | nil => rfl
  | cons e rest ih =>
    have he := hex_roundtrip e.masks (h e (by simp))
    have hrest := ih (fun e' he' => h e' (by simp [he']))
    unfold channel_mask_to_json_obj at hrest ⊢
    unfold channel_mask_from_json_obj at hrest ⊢
    simp only [List.map_cons, List.mapM_cons]
    simp [jobjGet, List.find?, he] at hrest
    simp [jobjGet, List.find?, he, hrest]

/-- Unpack `passKey`. -/
theorem passKey_facts (k : Nat) (h : passKey k = true) :
    (idToName k).isSome = true ∧ k ≠ TLV_TYPE_ACTIVE_TIMESTAMP ∧
    k ≠ TLV_TYPE_CHANNEL ∧ k ≠ TLV_TYPE_CHANNEL_MASK ∧
    k ≠ TLV_TYPE_EXTENDED_PAN_ID ∧ k ≠ TLV_TYPE_NETWORK_MASTER_KEY ∧
    k ≠ TLV_TYPE_SECURITY_POLICY := by
  simp only [passKey, Bool.and_eq_true, Bool.not_eq_true',
    beq_eq_false_iff_ne, ne_eq] at h
  tauto

/-- Per-entry cycle for a key with no transcoding rule: the entry is
not touched by the in-place update, serializes to its own JSON
primitive and decodes back to itself. -/
theorem pass_entry_cycle (k : Nat) (v : DVal) (j : JVal)
    (hp : passKey k = true) (hj : dvalToJVal v = some j)
    (hback : jvalPassthrough j = v) :
    ∃ v2 n j2, dvalMutateActive k v = some v2 ∧ idToName k = some n ∧
      dvalToJVal v2 = some j2 ∧ nameToId n = some k ∧
      dvalDecodeActive k j2 = some v := by
  obtain ⟨hsome, h14, h0, h53, h2, h5, h12⟩ := passKey_facts k hp
  cases hn : idToName k with
  | none => rw [hn] at hsome; simp at hsome
  | some n =>
    have hinv : nameToId n = some k := by
      obtain ⟨q, hfind, hq2⟩ := Option.map_eq_some'.mp hn
      have hqmem := List.mem_of_find?_eq_some hfind
      have hq1 : q.1 = k := by
        have := List.find?_some hfind
        simpa using this
      have := tlvTableInverse q hqmem
      rw [hq2, hq1] at this
      exact this
    refine ⟨v, n, j, ?_, rfl, hj, hinv, ?_⟩
    · simp [dvalMutateActive, h14, h0, h53, h2, h5, h12]
    · simp [dvalDecodeActive, h14, h0, h53, h2, h5, h12, hback]

/-- Per-entry encode/decode cycle: a well-formed entry survives the
in-place update, JSON serialization, key translation and decoding
unchanged. -/
theorem entry_cycle (k : Nat) (v : DVal) (h : entryWF k v = true) :
    ∃ v2 n j, dvalMutateActive k v = some v2 ∧ idToName k = some n ∧
      dvalToJVal v2 = some j ∧ nameToId n = some k ∧
      dvalDecodeActive k j = some v := by
  cases v with
  | dts t =>
    have hk : k = TLV_TYPE_ACTIVE_TIMESTAMP := by simpa [entryWF] using h
    subst hk
    refine ⟨_, "ActiveTimestamp", _, rfl, rfl, rfl, rfl, ?_⟩
    obtain ⟨s, tk, u⟩ := t
    cases u <;> rfl
  | dchan c =>
    have hk : k = TLV_TYPE_CHANNEL := by simpa [entryWF] using h
    subst hk
    exact ⟨_, "Channel", _, rfl, rfl, rfl, rfl, rfl⟩
  | dmask m =>
    simp only [entryWF, Bool.and_eq_true, beq_iff_eq] at h
    obtain ⟨hk, hall⟩ := h
    subst hk
    have hm : ∀ e ∈ m, ∀ x ∈ e.masks, x < 256 := by
      simpa [bytesWF, List.all_eq_true] using hall
    refine ⟨_, "ChannelMask", channel_mask_to_json_obj m, rfl, rfl, rfl, rfl, ?_⟩
    show (channel_mask_from_json_obj (channel_mask_to_json_obj m)).map DVal.dmask =
      some (.dmask m)
    rw [channel_mask_roundtrip m hm]
    rfl
  | dbytes b =>
    simp only [entryWF, Bool.and_eq_true, Bool.or_eq_true, beq_iff_eq] at h
    obtain ⟨hk, hwf⟩ := h
    have hb : ∀ x ∈ b, x < 256 := by
      simpa [bytesWF, List.all_eq_true] using hwf
    rcases hk with hk | hk
    · subst hk
      refine ⟨_, "ExtendedPanId", .jstr (bytes_to_hex b), rfl, rfl, rfl, rfl, ?_⟩
      show (hex_to_bytes (bytes_to_hex b)).map DVal.dbytes = some (.dbytes b)
      rw [hex_roundtrip b hb]
      rfl
    · subst hk
      refine ⟨_, "NetworkMasterKey", .jstr (bytes_to_hex b), rfl, rfl, rfl, rfl, ?_⟩
      show (hex_to_bytes (bytes_to_hex b)).map DVal.dbytes = some (.dbytes b)
      rw [hex_roundtrip b hb]
      rfl
  | dsec sp =>
    have hk : k = TLV_TYPE_SECURITY_POLICY := by simpa [entryWF] using h
    subst hk
    exact ⟨_, "SecurityPolicy", _, rfl, rfl, rfl, rfl, rfl⟩
  | dint m =>
    exact pass_entry_cycle k _ (.jnum m) (by simpa [entryWF] using h) rfl rfl
  | dstr s =>
    exact pass_entry_cycle k _ (.jstr s) (by simpa [entryWF] using h) rfl rfl
  | dbool bv =>
    exact pass_entry_cycle k _ (.jbool bv) (by simpa [entryWF] using h) rfl rfl
  | djson j =>
    simp [entryWF] at h

/-- The three stages of the round trip, by induction over the
dataset: the in-place update succeeds, the mutated dict serializes to
a JSON object, and decoding that object returns the original
dataset. -/
theorem active_stages (d : Dataset) (h : activeWF d = true) :
    ∃ d2 fs, activeMutate d = some d2 ∧ datasetToJObj d2 = some (.jobj fs) ∧
      active_op_dataset_from_json (.jobj fs) = some d := by
  induction d with
  | nil => exact ⟨[], [], rfl, rfl, rfl⟩
  | cons p rest ih =>
    obtain ⟨k, v⟩ := p
    rw [show activeWF ((k, v) :: rest) =
        (entryWF k v && activeWF rest) from rfl, Bool.and_eq_true] at h
    obtain ⟨hkv, hrest⟩ := h
    obtain ⟨v2, n, j, hm, hn, hj, hni, hdec⟩ := entry_cycle k v hkv
    obtain ⟨d2, fs, h1, h2, h3⟩ := ih hrest
    refine ⟨(k, v2) :: d2, (n, j) :: fs, ?_, ?_, ?_⟩
    · unfold activeMutate at h1 ⊢
      rw [List.mapM_cons, hm, h1]
      rfl
    · have h2' : (d2.mapM (fun (p : Nat × DVal) => do
          let n ← idToName p.1
          let j ← dvalToJVal p.2
          pure (n, j))) = some fs := by
        unfold datasetToJObj at h2
        obtain ⟨fs2, hq, hfs⟩ := Option.map_eq_some'.mp h2
        obtain rfl : fs2 = fs := by injection hfs
        exact hq
      unfold datasetToJObj
      rw [List.mapM_cons, hn, hj, h2']
      rfl
    · have h3' : (fs.mapM (fun (p : String × JVal) => do
          let k2 ← nameToId p.1
          let v3 ← dvalDecodeActive k2 p.2
          pure (k2, v3))) = some rest := h3
      show (((n, j) :: fs).mapM (fun (p : String × JVal) => do
          let k2 ← nameToId p.1
          let v3 ← dvalDecodeActive k2 p.2
          pure (k2, v3))) = some ((k, v) :: rest)
      rw [List.mapM_cons]
      simp only [hni, hdec, Option.bind_eq_bind, Option.some_bind,
        Option.pure_def] at h3' ⊢
      rw [h3']
      rfl

/-- C4: the active-dataset codec round-trips: for every representable
well-formed active dataset containing an ActiveTimestamp, a Channel,
a multi-page ChannelMask, an ExtendedPanId, a NetworkMasterKey and a
SecurityPolicy, decoding the JSON produced by encoding the dataset
returns the dataset itself, structurally equal. -/
theorem active_dataset_roundtrip (d : Dataset) (hwf : activeWF d = true)
    (hkeys : (d.map Prod.fst).Nodup) (hrep : containsRepresentative d = true) :
    activeRoundTripped d = some d := by
  obtain ⟨d2, fs, h1, h2, h3⟩ := active_stages d hwf
  unfold activeRoundTripped active_op_dataset_to_json
  rw [h1]
  show (match (datasetToJObj d2).map (fun j => (d2, j)) with
    | none => none
    | some p => active_op_dataset_from_json p.2) = some d
  rw [h2]
  exact h3

/-- Witness for `active_dataset_roundtrip` at `sampleActiveDataset`. -/
theorem active_dataset_roundtrip_witness :
    activeWF sampleActiveDataset = true ∧
    (sampleActiveDataset.map Prod.fst).Nodup ∧
    containsRepresentative sampleActiveDataset = true ∧
    activeRoundTripped sampleActiveDataset = some sampleActiveDataset :=
  ⟨rfl, by decide, rfl,
   active_dataset_roundtrip sampleActiveDataset rfl (by decide) rfl⟩

/-- C7 counterexample: the codec is NOT pure in its argument.
Encoding `tsOnlyDataset` for a set operation leaves the caller's dict
changed: the Timestamp record at the ActiveTimestamp key has been
replaced in place by its JSON object. -/
theorem codec_mutates_argument_counterexample :
    (active_op_dataset_to_json tsOnlyDataset).map Prod.fst ≠ some tsOnlyDataset ∧
    (active_op_dataset_to_json tsOnlyDataset).map Prod.fst =
      some [(TLV_TYPE_ACTIVE_TIMESTAMP,
        .djson (.jobj [("Seconds", .jnum 59), ("Ticks", .jnum 0), ("U", .jnum 0)]))] := by
  constructor
  · rw [show (active_op_dataset_to_json tsOnlyDataset).map Prod.fst =
        some [(TLV_TYPE_ACTIVE_TIMESTAMP,
          DVal.djson (.jobj [("Seconds", .jnum 59), ("Ticks", .jnum 0),
            ("U", .jnum 0)]))] from rfl]
    intro hcontra
    simp [tsOnlyDataset] at hcontra
  · rfl

/-- C7 (amended): the codec owns no state, but the set-operation
encoders do mutate the caller's dataset in place: entries at keys with
a transcoding rule are replaced by their JSON encodings (steering-data
bytes by hex strings), while a dataset made only of pass-through keys
is left unchanged. -/
theorem codec_mutation_spec (d : Dataset)
    (hpass : ∀ p ∈ d, passKey p.1 = true) :
    activeMutate d = some d ∧
    commissionerSetMutate [(TLV_TYPE_STEERING_DATA, .dbytes [255])] =
      some [(TLV_TYPE_STEERING_DATA, .dstr "ff")] := by
  constructor
  · induction d with
    | nil => rfl
    | cons p rest ih =>
      have hp := passKey_facts p.1 (hpass p (by simp))
      have hmut : dvalMutateActive p.1 p.2 = some p.2 := by
        simp [dvalMutateActive, hp.2.1, hp.2.2.1, hp.2.2.2.1,
          hp.2.2.2.2.1, hp.2.2.2.2.2.1, hp.2.2.2.2.2.2]
      have hrest : activeMutate rest = some rest :=
        ih (fun q hq => hpass q (by simp [hq]))
      unfold activeMutate at hrest ⊢
      rw [List.mapM_cons, hmut, hrest]
      rfl
  · rfl

/-- Witness for `codec_mutation_spec`: a dataset of two pass-through
primitives. -/
theorem codec_mutation_spec_witness :
    (∀ p ∈ ([(TLV_TYPE_NETWORK_NAME, DVal.dstr "openthread-test"),
       (TLV_TYPE_PAN_ID, DVal.dint 64206)] : Dataset), passKey p.1 = true) ∧
    activeMutate [(TLV_TYPE_NETWORK_NAME, DVal.dstr "openthread-test"),
       (TLV_TYPE_PAN_ID, DVal.dint 64206)] =
      some [(TLV_TYPE_NETWORK_NAME, DVal.dstr "openthread-test"),
       (TLV_TYPE_PAN_ID, DVal.dint 64206)] ∧
    commissionerSetMutate [(TLV_TYPE_STEERING_DATA, .dbytes [255])] =
      some [(TLV_TYPE_STEERING_DATA, .dstr "ff")] := by
  have hp : ∀ p ∈ ([(TLV_TYPE_NETWORK_NAME, DVal.dstr "openthread-test"),
      (TLV_TYPE_PAN_ID, DVal.dint 64206)] : Dataset), passKey p.1 = true := by
    decide
  have h := codec_mutation_spec _ hp
  exact ⟨hp, h.1, h.2⟩

end Thci
